import Mathlib

/-!
Shallow embedding of the command processor of the `own-redis` server
(`src/unnamed/part_000`, the full revision; `src/index.js` is an earlier
revision containing only the `set`/`get` cases with identical behaviour).

The JavaScript program keeps one global object `store = {}` and dispatches
each decoded command array `reply` (command name at index 0, arguments after)
through a `switch` inside the `returnReply` callback, writing RESP-encoded
reply strings to the connection.  We model:

* the store as an association list from keys to JavaScript values
  (`Value.str` for strings stored by `set`/`mset`, `Value.num` for the
  numbers stored back by `incr`/`decr`);
* each `connection.write(...)` as appending the written wire string to a
  list of writes;
* the undeclared global `expiry` referenced by the `expire`/`ttl` cases:
  the module never declares it, so in strict (ES-module) mode any access
  throws `ReferenceError: expiry is not defined`, modelled by the
  `Outcome.thrown` constructor carrying the writes performed before the
  fault and the store state at the fault.

* JavaScript numbers: the program applies `Number(...)` to stored values
  and does float64 arithmetic on the result.  Whether a coercion is NaN is
  a discrete syntactic property and is classified completely
  (`jsNumericValid`, the full StringNumericLiteral grammar).  Exact values
  are tracked only on the integer fragment of magnitude below 2^53
  (`jsExactInt?`), where float64 represents the value, its successor and
  its predecessor exactly, so the program's `+ 1`/`- 1` and
  stringification coincide with integer arithmetic.  A coercion that is a
  number outside that fragment (fractional, huge or infinite) makes the
  `incr`/`decr` outcome `Outcome.unmodeled`: the model declines to assert
  a result that would depend on untracked float64 rounding.

JavaScript observational conventions used by the source and mirrored here:
`store[k] = undefined` (which happens in `set` with a missing value argument
and in `mset` with an odd argument list) is indistinguishable from an absent
key through every operation of this program, all of which test
`store[key] !== undefined` or read `store[key]`; so `Store.assign` with
`none` erases the binding.  A missing argument (`reply[i]` out of range) is
`undefined`, and using it as a property key coerces it to the string
"undefined" (`jsKey`).
-/

set_option autoImplicit false

namespace OwnRedis

/-- A JavaScript value as stored in `store`: `set`/`mset` store strings,
`incr`/`decr` store numbers.  `num` carries the exact integer value of the
stored float64: `incr`/`decr` only produce it through `jsCoerce`, which
restricts string coercions to the exactly-representable integer range
(magnitude below 2^53) and routes every other numeric coercion to
`Coercion.outside`, leaving that command outcome unmodelled instead of
asserting inexact float64 arithmetic as exact. -/
inductive Value where
  | str (s : String)
  | num (n : Int)
  deriving DecidableEq

/-- The in-memory key space `store`, as an association list with unique keys
(a JavaScript plain object, keyed by strings). -/
abbrev Store := List (String × Value)

/-- `store[key]`: first binding of `key`, or `none` for `undefined`. -/
def Store.lookup (st : Store) (key : String) : Option Value :=
  match st with
  | [] => none
  | (k, v) :: rest => if k = key then some v else Store.lookup rest key

/-- `store[key] = v`: overwrite the existing binding in place, else append. -/
def Store.insert (st : Store) (key : String) (v : Value) : Store :=
  match st with
  | [] => [(key, v)]
  | (k, w) :: rest =>
      if k = key then (k, v) :: rest else (k, w) :: Store.insert rest key v

/-- `delete store[key]`: remove the binding of `key`. -/
def Store.erase (st : Store) (key : String) : Store :=
  match st with
  | [] => []
  | (k, w) :: rest => if k = key then rest else (k, w) :: Store.erase rest key

/-- `store[key] = x` where `x` may be `undefined` (`none`): assigning
`undefined` leaves the key observationally absent for every command of this
program, so it is modelled as erasure (see the module comment). -/
def Store.assign (st : Store) (key : String) (v : Option Value) : Store :=
  match v with
  | some w => st.insert key w
  | none => st.erase key

/-- A possibly-`undefined` argument used as a property key: JavaScript
coerces `undefined` to the string "undefined". -/
def jsKey : Option String → String
  | some s => s
  | none => "undefined"

/-- JavaScript string conversion of a stored value, as in the templates
`+$\x7bvalue\x7d\r\n` and `:$\x7bstore[key]\x7d\r\n`; integers print as in
Lean. `undefined` prints as "undefined". -/
def jsString : Option Value → String
  | none => "undefined"
  | some (.str s) => s
  | some (.num n) => toString n

/-- JavaScript truthiness test `!value` on `store[key]`: `undefined`, the
empty string and the number 0 are falsy. -/
def jsFalsy : Option Value → Bool
  | none => true
  | some (.str s) => s = ""
  | some (.num n) => n = 0

/-- The whitespace trimmed by JavaScript `Number(...)` (the StrWhiteSpaceChar
set: ASCII whitespace, NBSP, the Unicode space separators, line/paragraph
separators and the BOM). -/
def isJsWhitespace (c : Char) : Bool :=
  c = '\t' || c = '\n' || c = '\x0b' || c = '\x0c' || c = '\r' || c = ' ' ||
  c = '\u00A0' || c = '\u1680' || ('\u2000' ≤ c && c ≤ '\u200A') ||
  c = '\u2028' || c = '\u2029' || c = '\u202F' || c = '\u205F' ||
  c = '\u3000' || c = '\uFEFF'

/-- The character list of `s` with JavaScript whitespace trimmed from both
ends, as `Number(...)` does before parsing. -/
def jsTrim (s : String) : List Char :=
  ((s.toList.dropWhile isJsWhitespace).reverse.dropWhile isJsWhitespace).reverse

/-- A nonempty run of decimal digits. -/
def digitRun (cs : List Char) : Bool :=
  cs ≠ [] && cs.all Char.isDigit

/-- Value of a decimal digit run. -/
def decValue (cs : List Char) : Nat :=
  cs.foldl (fun acc c => acc * 10 + (c.toNat - 48)) 0

def isHexDigitChar (c : Char) : Bool :=
  c.isDigit || ('a' ≤ c && c ≤ 'f') || ('A' ≤ c && c ≤ 'F')

def isOctDigitChar (c : Char) : Bool :=
  '0' ≤ c && c ≤ '7'

def isBinDigitChar (c : Char) : Bool :=
  c = '0' || c = '1'

/-- Value of a hexadecimal digit. -/
def hexDigitVal (c : Char) : Nat :=
  if c.isDigit then c.toNat - 48
  else if 'a' ≤ c && c ≤ 'f' then c.toNat - 87
  else c.toNat - 55

/-- Value of a digit run in base `b` (digits of value below `b`). -/
def baseValue (b : Nat) (cs : List Char) : Nat :=
  cs.foldl (fun acc c => acc * b + hexDigitVal c) 0

/-- An ExponentPart tail of a StrDecimalLiteral: either nothing, or
`e`/`E`, an optional sign, and a nonempty digit run. -/
def expPartValid : List Char → Bool
  | [] => true
  | c :: rest =>
      (c = 'e' || c = 'E') &&
      (match rest with
       | '+' :: ds => digitRun ds
       | '-' :: ds => digitRun ds
       | ds => digitRun ds)

/-- A StrUnsignedDecimalLiteral: `Infinity`, or decimal digits with an
optional fraction and exponent (`12`, `12.`, `12.5`, `.5`, `1e3`, ...). -/
def strUnsignedDecimalValid (cs : List Char) : Bool :=
  if cs = ['I', 'n', 'f', 'i', 'n', 'i', 't', 'y'] then true
  else
    let intPart := cs.takeWhile Char.isDigit
    match cs.drop intPart.length with
    | '.' :: rest2 =>
        let fracPart := rest2.takeWhile Char.isDigit
        (intPart ≠ [] || fracPart ≠ []) && expPartValid (rest2.drop fracPart.length)
    | rest => intPart ≠ [] && expPartValid rest

/-- A StrDecimalLiteral: an unsigned decimal literal with an optional sign. -/
def strDecimalValid : List Char → Bool
  | '+' :: rest => strUnsignedDecimalValid rest
  | '-' :: rest => strUnsignedDecimalValid rest
  | cs => strUnsignedDecimalValid cs

/-- A NonDecimalIntegerLiteral: `0x`/`0X`, `0o`/`0O` or `0b`/`0B` followed
by a nonempty run of digits of that base (no sign allowed). -/
def nonDecimalIntValid : List Char → Bool
  | '0' :: x :: ds =>
      ((x = 'x' || x = 'X') && ds ≠ [] && ds.all isHexDigitChar) ||
      ((x = 'o' || x = 'O') && ds ≠ [] && ds.all isOctDigitChar) ||
      ((x = 'b' || x = 'B') && ds ≠ [] && ds.all isBinDigitChar)
  | _ => false

/-- `Number(s)` is a number (not NaN): after trimming, the string is empty
(value 0) or a StringNumericLiteral — a signed decimal literal (with
optional fraction and exponent, or `Infinity`) or a hex/octal/binary
integer literal.  This classifies NaN-ness completely; numeric separators
and anything else convert to NaN. -/
def jsNumericValid (s : String) : Bool :=
  let t := jsTrim s
  t = [] || strDecimalValid t || nonDecimalIntValid t

/-- The exactly-modelled integer fragment of `Number(s)`: the trimmed
string is empty (0), an optionally signed decimal digit run, or a
hex/octal/binary literal, and the resulting integer has magnitude below
2^53 — exactly the range where float64 represents the value and its
successor/predecessor exactly, so the program's subsequent `+ 1`/`- 1` and
stringification are exact integer arithmetic.  `none` means the value is
outside this fragment (it may still be a number, see `jsStringCoerce`). -/
def jsExactInt? (s : String) : Option Int :=
  let t := jsTrim s
  let core : Option Int :=
    if t = [] then some 0
    else
      match t with
      | '+' :: ds => if digitRun ds then some (Int.ofNat (decValue ds)) else none
      | '-' :: ds => if digitRun ds then some (-(Int.ofNat (decValue ds))) else none
      | '0' :: x :: ds =>
          if (x = 'x' || x = 'X') && ds ≠ [] && ds.all isHexDigitChar then
            some (Int.ofNat (baseValue 16 ds))
          else if (x = 'o' || x = 'O') && ds ≠ [] && ds.all isOctDigitChar then
            some (Int.ofNat (baseValue 8 ds))
          else if (x = 'b' || x = 'B') && ds ≠ [] && ds.all isBinDigitChar then
            some (Int.ofNat (baseValue 2 ds))
          else if digitRun ('0' :: x :: ds) then
            some (Int.ofNat (decValue ('0' :: x :: ds)))
          else none
      | ds => if digitRun ds then some (Int.ofNat (decValue ds)) else none
  match core with
  | some n => if n.natAbs < 2 ^ 53 then some n else none
  | none => none

/-- Classification of a JavaScript `Number(...)` coercion in the model. -/
inductive Coercion where
  /-- The coercion is NaN. -/
  | nan
  /-- The coercion is exactly the integer `n`, with `n.natAbs < 2 ^ 53`
  when coming from a string: float64 arithmetic on it is exact. -/
  | int (n : Int)
  /-- The coercion is a number outside the exactly-modelled integer
  fragment (fractional, of magnitude at least 2^53, or infinite); its
  float64 value is not tracked by the model. -/
  | outside
  deriving DecidableEq

/-- `Number(s)` for a string: the exact integer on the modelled fragment,
`outside` for a valid numeric literal beyond it, NaN otherwise. -/
def jsStringCoerce (s : String) : Coercion :=
  match jsExactInt? s with
  | some n => .int n
  | none => if jsNumericValid s then .outside else .nan

/-- `Number(x)` on a possibly-`undefined` stored value:
`Number(undefined)` is NaN; a stored number converts to itself (tracked
exactly only below 2^53). -/
def jsCoerce : Option Value → Coercion
  | none => .nan
  | some (.num n) => if n.natAbs < 2 ^ 53 then .int n else .outside
  | some (.str s) => jsStringCoerce s

/-- The outcome of running the `returnReply` callback on one decoded
command: either it returns normally after the listed `connection.write`
calls, or a statement throws (the undeclared `expiry` global), recording
the writes already performed and the store state at the fault.
`unmodeled` marks the one place the model declines to answer: an
`incr`/`decr` whose `Number(...)` coercion is a number outside the
exactly-representable integer fragment (a fractional, huge or infinite
float64), where the program's result depends on float64 rounding that the
model does not track.  No theorem relies on that constructor. -/
inductive Outcome where
  | ok (writes : List String) (store : Store)
  | thrown (err : String) (writes : List String) (store : Store)
  | unmodeled
  deriving DecidableEq

/-- The `mset` loop
`for (let i = 1; i < reply.length; i += 2) store[reply[i]] = reply[i + 1];`.
When the argument list is odd, the last iteration reads `reply[i + 1]` out
of range (`undefined`). -/
def msetLoop (reply : List String) (i : Nat) (st : Store) : Store :=
  if i < reply.length then
    msetLoop reply (i + 2) (st.assign (jsKey reply[i]?) ((reply[i+1]?).map Value.str))
  else st
  termination_by reply.length - i
  decreasing_by omega

/-- The `returnReply` callback of `src/unnamed/part_000`: dispatch on
`reply[0]` and process one command against the store.  The `expire` and
`ttl` cases reach the undeclared `expiry` global whenever the key is live,
which throws a `ReferenceError`. -/
def returnReply (st : Store) (reply : List String) : Outcome :=
  let command := reply[0]?
  if command = some "set" then
    let key := jsKey reply[1]?
    .ok ["+Ok\r\n"] (st.assign key ((reply[2]?).map Value.str))
  else if command = some "get" then
    let key := jsKey reply[1]?
    let value := st.lookup key
    .ok ((if jsFalsy value then ["$-1\r\n"] else []) ++
      ["+" ++ jsString value ++ "\r\n"]) st
  else if command = some "ping" then
    .ok ["+PONG\r\n"] st
  else if command = some "del" then
    let key := jsKey reply[1]?
    if st.lookup key ≠ none then .ok [":1\r\n"] (st.erase key)
    else .ok [":0\r\n"] st
  else if command = some "exists" then
    let key := jsKey reply[1]?
    .ok [(if st.lookup key ≠ none then ":1\r\n" else ":0\r\n")] st
  else if command = some "incr" then
    let key := jsKey reply[1]?
    match st.lookup key with
    | none =>
        let st1 := st.insert key (.num 1)
        .ok [":" ++ jsString (st1.lookup key) ++ "\r\n"] st1
    | some v =>
        match jsCoerce (some v) with
        | .nan => .ok ["-ERR value is not an integer\r\n"] st
        | .int n =>
            let st1 := st.insert key (.num (n + 1))
            .ok [":" ++ jsString (st1.lookup key) ++ "\r\n"] st1
        | .outside => .unmodeled
  else if command = some "expire" then
    let key := jsKey reply[1]?
    if st.lookup key = none then .ok [":0\r\n"] st
    else .thrown "ReferenceError: expiry is not defined" [] st
  else if command = some "ttl" then
    let key := jsKey reply[1]?
    if st.lookup key = none then .ok [":-2\r\n"] st
    else .thrown "ReferenceError: expiry is not defined" [] st
  else if command = some "decr" then
    let key := jsKey reply[1]?
    let st1 := if st.lookup key = none then st.insert key (.num 0) else st
    match jsCoerce (st1.lookup key) with
    | .nan => .ok ["-ERR value is not an integer\r\n"] st1
    | .int n =>
        let st2 := st1.insert key (.num (n - 1))
        .ok [":" ++ jsString (st2.lookup key) ++ "\r\n"] st2
    | .outside => .unmodeled
  else if command = some "mset" then
    .ok ["+OK\r\n"] (msetLoop reply 1 st)
  else
    .ok ["-ERR unknown command\r\n"] st

end OwnRedis

namespace OwnRedis

/-- Inserting a binding makes it the one found by lookup. -/
theorem Store.lookup_insert_self (st : Store) (k : String) (v : Value) :
    (st.insert k v).lookup k = some v := by
  induction st with
  | nil => simp [Store.insert, Store.lookup]
  | cons p rest ih =>
      obtain ⟨a, b⟩ := p
      by_cases h : a = k <;> simp [Store.insert, Store.lookup, h, ih]

/-- C1: the claim says GET produces exactly one reply, a bulk string of the
stored value (or a single null bulk when absent).  The code instead tests
truthiness and lacks an else branch: GET of a stored empty string writes the
null bulk AND a simple-string reply, and GET of an absent key writes the
null bulk AND "+undefined"; the value reply is a simple string, never a bulk
string. -/
theorem get_double_write_on_falsy :
    returnReply [("foo", Value.str "")] ["get", "foo"] =
      .ok ["$-1\r\n", "+\r\n"] [("foo", Value.str "")] ∧
    returnReply [] ["get", "foo"] = .ok ["$-1\r\n", "+undefined\r\n"] [] := by
  decide

/-- C2: the claim says every operation treats a key with an elapsed expiry
as absent (TTL replying -2, etc.).  The code keeps no expirations structure
at all: EXISTS and GET consult only the store, and TTL on any live key
throws the undeclared-`expiry` ReferenceError instead of ever computing a
remaining time or replying -2. -/
theorem ttl_throws_on_live_key :
    returnReply [("k", Value.str "v")] ["ttl", "k"] =
      .thrown "ReferenceError: expiry is not defined" [] [("k", Value.str "v")] ∧
    returnReply [("k", Value.str "v")] ["exists", "k"] =
      .ok [":1\r\n"] [("k", Value.str "v")] ∧
    returnReply [("k", Value.str "v")] ["get", "k"] =
      .ok ["+v\r\n"] [("k", Value.str "v")] := by
  decide

/-- C3: the claim says no command raises an unhandled fault, naming EXPIRE
and TTL on an existing key.  EXPIRE on a live key assigns to the undeclared
global `expiry`, throwing a ReferenceError that propagates out of the
command processor. -/
theorem expire_throws_on_live_key :
    returnReply [("foo", Value.str "bar")] ["expire", "foo", "10"] =
      .thrown "ReferenceError: expiry is not defined" [] [("foo", Value.str "bar")] := by
  decide

/-- C4 counterexample: the claim says INCR/DECR reject whitespace-padded
strings such as " 42 " and the empty string with NotAnInteger.  The code
converts with JavaScript Number(), which trims whitespace and maps the
empty string to 0: INCR of " 42 " succeeds with 43 and INCR of "" succeeds
with 1; neither produces the NotAnInteger error reply. -/
theorem incr_accepts_padded_and_empty :
    returnReply [("k", Value.str " 42 ")] ["incr", "k"] =
      .ok [":43\r\n"] [("k", Value.num 43)] ∧
    returnReply [("e", Value.str "")] ["incr", "e"] =
      .ok [":1\r\n"] [("e", Value.num 1)] ∧
    returnReply [("k", Value.str " 42 ")] ["incr", "k"] ≠
      .ok ["-ERR value is not an integer\r\n"] [("k", Value.str " 42 ")] := by
  decide

/-- C4 amended: INCR and DECR convert the stored value with JavaScript
Number coercion and store back the numeric result (a number, stringified
only in the reply): only a value whose coercion is NaN (e.g. "abc") is
rejected with the NotAnInteger error reply, while whitespace-padded integer
strings, the empty string (coerced to 0), and non-decimal forms such as
hex, fractional or exponent literals are accepted.  On the fragment where
the coercion is an exactly-representable integer (magnitude below 2^53,
`Coercion.int`, where float64 increment/decrement is exact), the stored
result and the integer reply are exactly n+1 / n-1. -/
theorem incr_decr_number_coercion (st : Store) (k : String) (v : Value)
    (hv : st.lookup k = some v) :
    (∀ n : Int, jsCoerce (some v) = .int n →
      returnReply st ["incr", k] =
        .ok [":" ++ toString (n + 1) ++ "\r\n"] (st.insert k (.num (n + 1))) ∧
      returnReply st ["decr", k] =
        .ok [":" ++ toString (n - 1) ++ "\r\n"] (st.insert k (.num (n - 1)))) ∧
    (jsCoerce (some v) = .nan →
      returnReply st ["incr", k] = .ok ["-ERR value is not an integer\r\n"] st ∧
      returnReply st ["decr", k] = .ok ["-ERR value is not an integer\r\n"] st) := by
  constructor
  · intro n hn
    constructor
    · simp [returnReply, jsKey, hv, hn, Store.lookup_insert_self, jsString]
    · simp [returnReply, jsKey, hv, hn, Store.lookup_insert_self, jsString]
  · intro hn
    constructor
    · simp [returnReply, jsKey, hv, hn]
    · simp [returnReply, jsKey, hv, hn]

/-- C4 witness: instantiating the amended theorem at the stored value
" 42 " shows the whitespace-padded string accepted and incremented. -/
theorem incr_decr_number_coercion_witness :
    returnReply [("k", Value.str " 42 ")] ["incr", "k"] =
      .ok [":43\r\n"] [("k", Value.num 43)] :=
  (((incr_decr_number_coercion [("k", Value.str " 42 ")] "k" (Value.str " 42 ")
    (by decide)).1 42 (by decide)).1).trans (by decide)

/-- C5 counterexample: the claim says every stored value that cannot be
parsed as a base-10 integer makes INCR/DECR fail with NotAnInteger and
leaves the store unchanged.  The hex literal "0x10" is not a base-10
integer, yet Number("0x10") is 16 (exactly, no rounding), so INCR succeeds
with :17 and DECR with :15, each changing the store; no error reply is
produced.  (Likewise the real code accepts fractional values such as
"3.14"; the hex input is the representative chosen here because its
arithmetic is exact integer arithmetic.) -/
theorem incr_accepts_hex_literal :
    returnReply [("k", Value.str "0x10")] ["incr", "k"] =
      .ok [":17\r\n"] [("k", Value.num 17)] ∧
    returnReply [("h", Value.str "0x10")] ["decr", "h"] =
      .ok [":15\r\n"] [("h", Value.num 15)] ∧
    returnReply [("k", Value.str "0x10")] ["incr", "k"] ≠
      .ok ["-ERR value is not an integer\r\n"] [("k", Value.str "0x10")] := by
  decide

/-- C5 amended: INCR and DECR reply the NotAnInteger protocol error and
leave the store exactly as it was only for stored values whose JavaScript
Number coercion is NaN (e.g. "abc"); a stored value that is not a base-10
integer but still coerces to a number — hex literals like "0x10",
fractional or exponent forms — is accepted and modified instead. -/
theorem incr_decr_not_an_integer (st : Store) (k : String) (v : Value)
    (hv : st.lookup k = some v) (hn : jsCoerce (some v) = .nan) :
    returnReply st ["incr", k] = .ok ["-ERR value is not an integer\r\n"] st ∧
    returnReply st ["decr", k] = .ok ["-ERR value is not an integer\r\n"] st := by
  constructor
  · simp [returnReply, jsKey, hv, hn]
  · simp [returnReply, jsKey, hv, hn]

/-- C5 witness: on the store binding "k" to "abc" (a NaN coercion), INCR
and DECR reply the error and return the store unchanged. -/
theorem incr_decr_not_an_integer_witness :
    returnReply [("k", Value.str "abc")] ["incr", "k"] =
      .ok ["-ERR value is not an integer\r\n"] [("k", Value.str "abc")] ∧
    returnReply [("k", Value.str "abc")] ["decr", "k"] =
      .ok ["-ERR value is not an integer\r\n"] [("k", Value.str "abc")] :=
  incr_decr_not_an_integer [("k", Value.str "abc")] "k" (Value.str "abc")
    (by decide) (by decide)

/-- C6 counterexample: the claim says MSET with an odd argument list replies
a malformed-command error and performs no writes.  The code has no arity
check: MSET a 1 b writes a := "1" (a store write), assigns undefined to b,
and replies "+OK". -/
theorem mset_odd_arity_accepted :
    returnReply [] ["mset", "a", "1", "b"] = .ok ["+OK\r\n"] [("a", Value.str "1")] := by
  simp [returnReply, msetLoop, Store.assign, Store.insert, Store.erase, jsKey]

/-- C6 amended: MSET performs no arity check: it assigns the arguments
pairwise and always replies the simple string "OK"; with an odd argument
list the trailing key is assigned `undefined` (reading past the end of the
command array), which leaves that key absent. -/
theorem mset_pairwise_no_arity_check (st : Store) (a v b : String) :
    returnReply st ["mset", a, v] = .ok ["+OK\r\n"] (st.insert a (.str v)) ∧
    returnReply st ["mset", a, v, b] =
      .ok ["+OK\r\n"] ((st.insert a (.str v)).erase b) ∧
    (Store.erase (Store.insert [] a (.str v)) b).lookup b = none := by
  refine ⟨?_, ?_, ?_⟩
  · simp [returnReply, msetLoop, Store.assign, jsKey]
  · simp [returnReply, msetLoop, Store.assign, jsKey]
  · by_cases h : a = b <;> simp [Store.insert, Store.erase, Store.lookup, h]

/-- C6 amended witness: on the empty store, MSET a 1 (odd argument list)
stores a and replies OK, and MSET a 1 b leaves b absent. -/
theorem mset_pairwise_no_arity_check_witness :
    returnReply [] ["mset", "a", "1"] = .ok ["+OK\r\n"] [("a", Value.str "1")] ∧
    (Store.erase (Store.insert [] "a" (.str "1")) "b").lookup "b" = none :=
  ⟨(mset_pairwise_no_arity_check [] "a" "1" "b").1,
    (mset_pairwise_no_arity_check [] "a" "1" "b").2.2⟩

/-- C7: the claim says EXPIRE on a live key records now + seconds and
replies integer 1.  The absent half holds (reply :0, store unchanged), but
on a live key the assignment to the undeclared `expiry` global throws a
ReferenceError before any reply is written — no expiry is ever recorded and
:1 is never sent. -/
theorem expire_absent_zero_live_throws :
    returnReply [] ["expire", "missing", "10"] = .ok [":0\r\n"] [] ∧
    returnReply [("a", Value.str "b")] ["expire", "a", "10"] =
      .thrown "ReferenceError: expiry is not defined" [] [("a", Value.str "b")] := by
  decide

/-- C8: the claim says SET replies the simple string "OK" (wire form
`+OK\r\n`), as the code's own comment states.  The code stores the value
but writes `+Ok\r\n` — lowercase k — which differs from the documented
reply. -/
theorem set_stores_but_replies_lowercase :
    returnReply [] ["set", "foo", "bar"] =
      .ok ["+Ok\r\n"] [("foo", Value.str "bar")] ∧
    "+Ok\r\n" ≠ "+OK\r\n" := by
  decide

/-- C9: the claim says set(k, v) then get(k) returns exactly v.  For
v = "" the stored value round-trips through the store, but GET's truthiness
test makes it also emit the null-bulk reply: the reply sequence is the null
bulk followed by the (empty) value reply, not a single reply carrying
exactly v. -/
theorem set_then_get_empty_string :
    returnReply [] ["set", "k", ""] = .ok ["+Ok\r\n"] [("k", Value.str "")] ∧
    returnReply [("k", Value.str "")] ["get", "k"] =
      .ok ["$-1\r\n", "+\r\n"] [("k", Value.str "")] := by
  decide

/-- C10: EXISTS and DEL decide by presence of the binding (the JavaScript
test `store[key] !== undefined`), not by truthiness: any bound key —
including one bound to the empty string — gets EXISTS reply :1, and DEL
removes the binding and replies :1. -/
theorem exists_del_by_presence (st : Store) (k : String) (v : Value)
    (hv : st.lookup k = some v) :
    returnReply st ["exists", k] = .ok [":1\r\n"] st ∧
    returnReply st ["del", k] = .ok [":1\r\n"] (st.erase k) := by
  constructor
  · simp [returnReply, jsKey, hv]
  · simp [returnReply, jsKey, hv]

/-- C10 witness: on the store binding "k" to the empty string, EXISTS
replies :1 and DEL removes the binding and replies :1. -/
theorem exists_del_by_presence_witness :
    returnReply [("k", Value.str "")] ["exists", "k"] =
      .ok [":1\r\n"] [("k", Value.str "")] ∧
    returnReply [("k", Value.str "")] ["del", "k"] = .ok [":1\r\n"] [] :=
  exists_del_by_presence [("k", Value.str "")] "k" (Value.str "") (by decide)

end OwnRedis
